import Mathlib

/-!
# Verification of the lite-http-tunnel core

A shallow embedding of the lite-http-tunnel edge server (`server.js`, here
the HTTP/2-capable variant), its HTTP/2 stream classes (`lib2.js`) and the
agent-side dispatchers (`http2client-example.js` and the plain client), with
proofs of the routing, isolation, backpressure, registration, error-handling
and header-translation properties stated for them.

JavaScript strings are modelled as Lean `String`s; the JS methods the source
uses (`indexOf(p) === 0`, `includes`, `split`-like URL parsing, truthiness)
are modelled by executable helpers on `List Char` because the corresponding
Lean `String` builtins do not reduce in the kernel.
-/

namespace LiteTunnel

/-- Models JavaScript `s.indexOf(p) === 0` (equivalently `s.startsWith(p)`):
`p` is a prefix of `s`. -/
def jsStartsWith (s p : String) : Bool :=
  List.isPrefixOf p.toList s.toList

/-- `listInfixOf pat l` is true iff `pat` occurs contiguously inside `l`. -/
def listInfixOf (pat : List Char) : List Char → Bool
  | [] => List.isPrefixOf pat []
  | c :: rest => List.isPrefixOf pat (c :: rest) || listInfixOf pat rest

/-- Models JavaScript `s.includes(p)`: `p` occurs as a substring of `s`. -/
def jsIncludes (s p : String) : Bool :=
  listInfixOf p.toList s.toList

/-- JavaScript truthiness of an optional string value (a header or an
environment variable): `undefined` and the empty string are falsy. -/
def jsTruthy : Option String → Bool
  | none => false
  | some s => s ≠ ""

/-!
## C1 — Agent registry: `getAvailableTunnelSocket` (server.js)

One registration per connected agent: the array entries pushed by
`setTunnelSocket` carry `host`, `pathPrefix`, the socket and the
`supports-http2` capability.  An absent `path-prefix` handshake header and
the empty string are both falsy in the source (`!s.pathPrefix`), so
`pathPrefix` is modelled as a `String` with `""` for the wildcard.
-/

/-- An entry of the `tunnelSockets` array (server.js `setTunnelSocket`).
The socket object itself is identified by a numeric id. -/
structure TunnelSocketEntry where
  host : String
  pathPrefix : String
  sid : Nat
  supportsHTTP2 : Bool
  deriving DecidableEq, Repr

/-- The comparator passed to `Array.prototype.sort` in
`getAvailableTunnelSocket`:
`if (!a.pathPrefix) return 1; if (!b.pathPrefix) return -1;
return b.pathPrefix.length - a.pathPrefix.length;`. -/
def tunnelCompare (a b : TunnelSocketEntry) : Int :=
  if a.pathPrefix = "" then 1
  else if b.pathPrefix = "" then -1
  else (b.pathPrefix.length : Int) - (a.pathPrefix.length : Int)

/-- The filter predicate of `getAvailableTunnelSocket`:
`if (s.host !== host) return false; if (!s.pathPrefix) return true;
return url.indexOf(s.pathPrefix) === 0;`. -/
def tunnelMatches (host url : String) (s : TunnelSocketEntry) : Bool :=
  s.host == host && (s.pathPrefix == "" || jsStartsWith url s.pathPrefix)

/-- Models the composite `array.sort(cmp)[0]` (with `null` for an empty
array).  ECMAScript's `Array.prototype.sort` is stable, so the first element
of the sorted array is the first element of the original array that is
minimal under the comparator; this fold computes exactly that element. -/
def sortFirst (cmp : α → α → Int) : List α → Option α
  | [] => none
  | x :: xs => some (xs.foldl (fun best y => if cmp y best < 0 then y else best) x)

/-- `getAvailableTunnelSocket(host, url)` from server.js: filter the live
registrations by host and path prefix, sort by the comparator, return the
first entry or `null`. -/
def getAvailableTunnelSocket (tunnelSockets : List TunnelSocketEntry)
    (host url : String) : Option TunnelSocketEntry :=
  sortFirst tunnelCompare (tunnelSockets.filter (tunnelMatches host url))

/-- Routing priority of a registration: any non-empty `pathPrefix` beats the
empty (wildcard) one, and longer prefixes beat shorter ones.  This is the
total preorder that the source's sort comparator realises. -/
def tunnelPriority (s : TunnelSocketEntry) : Nat :=
  if s.pathPrefix = "" then 0 else s.pathPrefix.length + 1

/-- A concrete registry: a wildcard agent and an `/api_v1` agent on the same
host (the spec's seed scenario 5). -/
def regsDemo : List TunnelSocketEntry :=
  [{ host := "h", pathPrefix := "", sid := 0, supportsHTTP2 := false },
   { host := "h", pathPrefix := "/api_v1", sid := 1, supportsHTTP2 := true }]

/-!
## C3 — Edge dispatcher flavor selection (server.js `handleRequest`)
-/

/-- Which event family a tunneled request uses. -/
inductive Flavor
  | http1
  | http2
  deriving DecidableEq, Repr

/-- The `isHttp2` test of server.js `handleRequest`:
`req.httpVersion === '2.0' || (req.headers['content-type'] &&
req.headers['content-type'].includes('application/grpc'))`.
An absent header is `undefined` (falsy) and the empty string is falsy. -/
def isHttp2Request (httpVersion : String) (contentType : Option String) : Bool :=
  httpVersion == "2.0" ||
    (jsTruthy contentType && jsIncludes (contentType.getD "") "application/grpc")

/-- The dispatch at the end of `handleRequest`: `handleHTTP2Request` when
`isHttp2 && tunnelSocketObj.supportsHTTP2`, else `handleHTTP1Request`. -/
def handleRequestFlavor (httpVersion : String) (contentType : Option String)
    (supportsHTTP2 : Bool) : Flavor :=
  if isHttp2Request httpVersion contentType && supportsHTTP2 then .http2 else .http1

/-!
## C8 — Edge header translation (server.js `getReqHeaders`)
-/

/-- An HTTP header map as Node.js presents it (lowercased names, duplicate
names already joined), modelled as an association list keyed by the first
occurrence of a name. -/
abbrev Headers := List (String × String)

/-- Reading `headers[k]`: `undefined` when the name is absent. -/
def getHeader (hs : Headers) (k : String) : Option String :=
  (hs.find? (fun p => p.1 == k)).map (fun p => p.2)

/-- Writing `headers[k] = v` on a JS object: replace the value in place if
the name is present, otherwise append the name. -/
def setHeader : Headers → String → String → Headers
  | [], k, v => [(k, v)]
  | p :: rest, k, v => if p.1 == k then (k, v) :: rest else p :: setHeader rest k v

/-- `splitOnChar c l` splits `l` at every occurrence of `c` (chunks in
order, separators removed). -/
def splitOnChar (c : Char) : List Char → List (List Char)
  | [] => [[]]
  | x :: xs =>
    match splitOnChar c xs with
    | [] => [[]]
    | h :: t => if x == c then [] :: h :: t else (x :: h) :: t

/-- Decimal value of a digit list. -/
def digitsVal (l : List Char) : Nat :=
  l.foldl (fun n c => n * 10 + (c.toNat - 48)) 0

/-- The `port` component of the WHATWG URL that `getReqHeaders` constructs
as `new URL((encrypted ? 'https' : 'http') + '://' + host)`: for a host of
the shape `name` or `name:digits` the port is the digit run, serialised back
as a decimal number and elided (empty) when it equals the scheme's default
(443 for https, 80 for http).  Other host shapes (IPv6 literals, or invalid
ports on which the URL constructor throws) are modelled as having no
port. -/
def urlPort (encrypted : Bool) (host : String) : String :=
  match splitOnChar ':' host.toList with
  | [_] => ""
  | [_, p] =>
    if p ≠ [] ∧ p.all Char.isDigit then
      if digitsVal p = (if encrypted then 443 else 80) then "" else Nat.repr (digitsVal p)
    else ""
  | _ => ""

/-- The comma-append of `getReqHeaders`:
`` `${previousValue || ''}${previousValue ? ',' : ''}${newValue}` `` —
the prior value comma-concatenated with the new one, or the new one alone
when there is no (or an empty) prior value. -/
def jsAppendForwarded (prior : Option String) (newValue : String) : String :=
  let previousValue := prior.getD ""
  previousValue ++ (if previousValue ≠ "" then "," else "") ++ newValue

/-- `getReqHeaders(req)` from server.js.  `encrypted` is
`!!req.socket.encrypted`, `remoteAddress` models `req.socket?.remoteAddress`
and `reqHeaders` is `req.headers`. -/
def getReqHeaders (encrypted : Bool) (remoteAddress : String)
    (reqHeaders : Headers) : Headers :=
  let host := (getHeader reqHeaders "host").getD ""
  let forwardPort :=
    if urlPort encrypted host ≠ "" then urlPort encrypted host
    else if encrypted then "443" else "80"
  let forwardProto := if encrypted then "https" else "http"
  let hs1 := setHeader reqHeaders "x-forwarded-for"
    (jsAppendForwarded (getHeader reqHeaders "x-forwarded-for") remoteAddress)
  let hs2 := setHeader hs1 "x-forwarded-port"
    (jsAppendForwarded (getHeader reqHeaders "x-forwarded-port") forwardPort)
  let hs3 := setHeader hs2 "x-forwarded-proto"
    (jsAppendForwarded (getHeader reqHeaders "x-forwarded-proto") forwardProto)
  setHeader hs3 "x-forwarded-host"
    (if jsTruthy (getHeader reqHeaders "x-forwarded-host")
     then (getHeader reqHeaders "x-forwarded-host").getD "" else host)

/-!
## C9 — `GET /tunnel_jwt_generator` and the edge request dispatch
-/

/-- The environment variables the generator endpoint reads. -/
structure EdgeEnv where
  jwtGeneratorUsername : Option String
  jwtGeneratorPassword : Option String
  verifyToken : Option String
  secretKey : Option String
  deriving DecidableEq, Repr

/-- A response body: plain text, or the JWT produced by
`jwt.sign({ token: VERIFY_TOKEN }, SECRET_KEY)`. -/
inductive HttpBody
  | text (s : String)
  | signedToken (claim secret : Option String)
  deriving DecidableEq, Repr

/-- The handler of `app.get('/tunnel_jwt_generator', ...)` in server.js:
status code and body as a function of the environment and the query
parameters. -/
def tunnelJwtGenerator (env : EdgeEnv) (username password : Option String) :
    Nat × HttpBody :=
  if !jsTruthy env.jwtGeneratorUsername || !jsTruthy env.jwtGeneratorPassword then
    (404, .text "Not found")
  else if username = env.jwtGeneratorUsername ∧ password = env.jwtGeneratorPassword then
    (200, .signedToken env.verifyToken env.secretKey)
  else
    (401, .text "Forbidden")

/-- Where the per-request dispatch installed on the HTTP server sends a
request. -/
inductive EdgeRoute
  | express
  | tunnel
  deriving DecidableEq, Repr

/-- The dispatch of server.js (`httpServer.on('request', ...)`, both server
variants): `const expressRoute = req.url === '/tunnel_jwt_generator'` —
`req.url` in Node is the full request target including any query string. -/
def dispatchEdgeRequest (url : String) : EdgeRoute :=
  if url == "/tunnel_jwt_generator" then .express else .tunnel

/-!
## C5 — Registration lifecycle (server.js `io.use` middleware,
`io.on('connection')`, `onDisconnect`)
-/

/-- `getTunnelSocket(host, pathPrefix)` from server.js. -/
def getTunnelSocket (tunnelSockets : List TunnelSocketEntry)
    (host pathPrefix : String) : Option TunnelSocketEntry :=
  tunnelSockets.find? (fun s => s.host == host && s.pathPrefix == pathPrefix)

/-- `removeTunnelSocket(host, pathPrefix)` from server.js. -/
def removeTunnelSocket (tunnelSockets : List TunnelSocketEntry)
    (host pathPrefix : String) : List TunnelSocketEntry :=
  tunnelSockets.filter (fun s => !(s.host == host && s.pathPrefix == pathPrefix))

/-- A lifecycle event on the edge: a handshake attempt (the `io.use`
middleware runs the duplicate-key check and then the token verification,
abstracted to `authOk`; on success the connection handler pushes the
registration via `setTunnelSocket`), or a channel disconnect (the
`onDisconnect` handler calls `removeTunnelSocket` with the host and path
prefix captured at connection time). -/
inductive EdgeOp
  | connect (host pathPrefix : String) (supportsHTTP2 authOk : Bool) (sid : Nat)
  | disconnect (host pathPrefix : String)
  deriving DecidableEq, Repr

/-- One lifecycle step; the `Option String` output is the error message
passed to `next(new Error(...))`, if any. -/
def edgeStep (st : List TunnelSocketEntry) :
    EdgeOp → List TunnelSocketEntry × Option String
  | .connect host pathPrefix s2 authOk sid =>
    if (getTunnelSocket st host pathPrefix).isSome then
      (st, some (host ++ " has a existing connection"))
    else if !authOk then
      (st, some "Authentication error")
    else
      (st ++ [{ host := host, pathPrefix := pathPrefix, sid := sid, supportsHTTP2 := s2 }],
        none)
  | .disconnect host pathPrefix => (removeTunnelSocket st host pathPrefix, none)

/-- The registry contents after a sequence of lifecycle events, starting
from the empty `tunnelSockets` array. -/
def edgeRun (ops : List EdgeOp) : List TunnelSocketEntry :=
  ops.foldl (fun st op => (edgeStep st op).1) []

/-- At most one live registration per `(host, pathPrefix)` pair. -/
def uniqueTunnelKeys (st : List TunnelSocketEntry) : Prop :=
  st.Pairwise (fun a b => ¬(a.host = b.host ∧ a.pathPrefix = b.pathPrefix))

/-!
## C2 — `HTTP2TunnelResponse` (lib2.js): per-request frame handling

The edge creates one `HTTP2TunnelResponse` Duplex per tunneled request; its
constructor installs seven socket listeners (`http2-response`,
`http2-response-pipe`, `http2-response-pipes`, `http2-response-pipe-error`,
`http2-response-pipe-end`, `http2-response-trailers`,
`http2-request-error`), each of which first compares the frame's request id
with its own `_responseId`.  Request ids (uuidV4 strings in the source) are
modelled as `String`.
-/

/-- A body chunk (an opaque byte string). -/
abbrev Chunk := List Nat

/-- A response-side wire frame of the HTTP/2 event family as received by
the edge; every frame carries the request id it belongs to.  The optional
payload of `responsePipeEnd` models the `data` argument of the
`http2-response-pipe-end` handler (a Buffer is always truthy in JS, so any
present chunk — even an empty one — is pushed). -/
inductive H2Frame
  | response (rid : String) (statusCode : Nat) (statusMessage : String) (headers : Headers)
  | responsePipe (rid : String) (chunk : Chunk)
  | responsePipes (rid : String) (chunks : List Chunk)
  | responsePipeError (rid : String) (msg : String)
  | responsePipeEnd (rid : String) (data : Option Chunk)
  | responseTrailers (rid : String) (trailers : Headers)
  | requestError (rid : String) (msg : String)
  deriving DecidableEq, Repr

/-- The request id a frame carries. -/
def H2Frame.rid : H2Frame → String
  | response i _ _ _ => i
  | responsePipe i _ => i
  | responsePipes i _ => i
  | responsePipeError i _ => i
  | responsePipeEnd i _ => i
  | responseTrailers i _ => i
  | requestError i _ => i

/-- An observable effect of one `HTTP2TunnelResponse` instance: a `push`
onto its readable side, the end-of-stream `push(null)`, one of its emitted
events (`response`, `trailers`, `requestError`), or its destruction with an
error (`this.destroy(new Error(error))`, which in turn emits an outward
`http2-response-pipe-error` frame). -/
inductive RespEv
  | push (c : Chunk)
  | pushNull
  | response (statusCode : Nat) (statusMessage : String) (headers : Headers)
  | trailers (t : Headers)
  | requestError (msg : String)
  | destroyed (msg : String)
  deriving DecidableEq, Repr

/-- The mutable state of one `HTTP2TunnelResponse`: which listener groups
are still attached (the five pipe-family listeners are always attached and
detached together in the source), and the stored `_trailers`. -/
structure H2RespState where
  onResponseAttached : Bool
  pipeAttached : Bool
  onRequestErrorAttached : Bool
  storedTrailers : Option Headers
  deriving DecidableEq, Repr

/-- The constructor's initial state: all seven listeners attached,
`_trailers = null`. -/
def h2respInit : H2RespState :=
  { onResponseAttached := true, pipeAttached := true,
    onRequestErrorAttached := true, storedTrailers := none }

/-- Delivery of one inbound frame to the listeners of the
`HTTP2TunnelResponse` with id `myId`: the new state and the effects, in
order.  Each arm is the corresponding handler of lib2.js: a handler runs
only while attached, and its body is guarded by
`this._responseId === responseId`. -/
def h2respStep (myId : String) (st : H2RespState) : H2Frame → H2RespState × List RespEv
  | .response i sc sm hs =>
    if st.onResponseAttached ∧ i = myId then
      ({ st with
          onResponseAttached := false
          onRequestErrorAttached := false }, [.response sc sm hs])
    else (st, [])
  | .responsePipe i c =>
    if st.pipeAttached ∧ i = myId then (st, [.push c]) else (st, [])
  | .responsePipes i cs =>
    if st.pipeAttached ∧ i = myId then (st, cs.map .push) else (st, [])
  | .responsePipeError i msg =>
    if st.pipeAttached ∧ i = myId then
      ({ st with pipeAttached := false }, [.destroyed msg])
    else (st, [])
  | .responsePipeEnd i data =>
    if st.pipeAttached ∧ i = myId then
      ({ st with pipeAttached := false },
        (match data with | some c => [RespEv.push c] | none => []) ++
          (match st.storedTrailers with | some t => [RespEv.trailers t] | none => []) ++
          [RespEv.pushNull])
    else (st, [])
  | .responseTrailers i t =>
    if st.pipeAttached ∧ i = myId then
      ({ st with storedTrailers := some t }, [])
    else (st, [])
  | .requestError i msg =>
    if st.onRequestErrorAttached ∧ i = myId then
      ({ st with
          onRequestErrorAttached := false
          onResponseAttached := false
          pipeAttached := false }, [.requestError msg])
    else (st, [])

/-- Delivery of a whole frame trace, collecting the effects in order. -/
def h2respRun (myId : String) (st : H2RespState) : List H2Frame → H2RespState × List RespEv
  | [] => (st, [])
  | f :: fs =>
    ((h2respRun myId (h2respStep myId st f).1 fs).1,
      (h2respStep myId st f).2 ++ (h2respRun myId (h2respStep myId st f).1 fs).2)

/-!
## C6 — the edge's response wiring (`handleHTTP2Request`, server.js)

On top of one `HTTP2TunnelResponse`, `handleHTTP2Request` arms
`once('requestError', onRequestError)` and `once('response', onResponse)`
and pipes the duplex into the public response `res`.
-/

/-- `delete headers[k]` on the copied response headers. -/
def deleteHeader (hs : Headers) (k : String) : Headers :=
  hs.filter (fun p => !(p.1 == k))

/-- The edge-side state for one tunneled request: the lib2 stream state,
the two armed `once` listeners of `handleHTTP2Request`, and the observable
state of the public response `res` (status code assignment, `writeHead`,
piped body chunks, and `end`). -/
structure EdgeResState where
  lib : H2RespState
  onResponseEdge : Bool
  onRequestErrorEdge : Bool
  resStatusCode : Option Nat
  resHead : Option (Nat × String × Headers)
  resBody : List Chunk
  resEndBody : Option String
  resEnded : Bool
  deriving DecidableEq, Repr

/-- The state right after `handleHTTP2Request` set the request up. -/
def edgeResInit : EdgeResState :=
  { lib := h2respInit, onResponseEdge := true, onRequestErrorEdge := true,
    resStatusCode := none, resHead := none, resBody := [],
    resEndBody := none, resEnded := false }

/-- The edge's reaction to one effect of the tunnel response stream:
`onResponse` (strip `:status`, `res.writeHead`), `onRequestError`
(`off('response')`, destroy, `res.statusCode = 502`,
`res.end('Request error')`), and the `pipe` into `res` (chunks while open;
`push(null)` ends `res`).  `trailers` has no listener in
`handleHTTP2Request`, and destroying the duplex writes nothing to `res`.
Writes after `res` has ended are dropped, as Node does. -/
def edgeApplyEv (st : EdgeResState) : RespEv → EdgeResState
  | .response sc sm hs =>
    if st.onResponseEdge then
      if st.resEnded then { st with onResponseEdge := false }
      else
        { st with
            onResponseEdge := false
            resHead := some (sc, sm, deleteHeader hs ":status") }
    else st
  | .requestError _ =>
    if st.onRequestErrorEdge then
      if st.resEnded then
        { st with
            onRequestErrorEdge := false
            onResponseEdge := false }
      else
        { st with
            onRequestErrorEdge := false
            onResponseEdge := false
            resStatusCode := some 502
            resEndBody := some "Request error"
            resEnded := true }
    else st
  | .push c => if st.resEnded then st else { st with resBody := st.resBody ++ [c] }
  | .pushNull => if st.resEnded then st else { st with resEnded := true }
  | .trailers _ => st
  | .destroyed _ => st

/-- Delivery of one inbound frame at the edge: the lib2 listeners run
first, then the edge handlers consume the emitted effects in order. -/
def edgeResStep (myId : String) (st : EdgeResState) (f : H2Frame) : EdgeResState :=
  ((h2respStep myId st.lib f).2).foldl edgeApplyEv
    { st with lib := (h2respStep myId st.lib f).1 }

/-- Delivery of a whole frame trace at the edge. -/
def edgeResRun (myId : String) (st : EdgeResState) : List H2Frame → EdgeResState
  | [] => st
  | f :: fs => edgeResRun myId (edgeResStep myId st f) fs

/-- A frame that leaves the response side of request `myId` still pending:
any frame of another request, or a data/batch/trailers frame of `myId`.
(The excluded kinds — `response`, `response-pipe-end`, `response-pipe-error`
and `request-error` of `myId` — settle or tear down the response.) -/
def leavesResponsePending (myId : String) : H2Frame → Prop
  | .response i _ _ _ => i ≠ myId
  | .responsePipeError i _ => i ≠ myId
  | .responsePipeEnd i _ => i ≠ myId
  | .requestError i _ => i ≠ myId
  | _ => True

/-- The edge-side invariant while the response of request `myId` is still
pending: the lib2 `request-error` listener and the edge `requestError`
handler are armed, `res` is still open, and no head has been written. -/
def responsePendingInv (st : EdgeResState) : Prop :=
  st.lib.onRequestErrorAttached = true ∧ st.onRequestErrorEdge = true ∧
    st.resEnded = false ∧ st.resHead = none

/-!
## C4 — Backpressure: emit, then await the transport `drain` before the
callback (lib2.js `HTTP2TunnelRequest` / `HTTP2TunnelResponse`)
-/

/-- A frame emitted on the control channel by the tunnel stream classes
(`http2-`-prefixed names from lib2.js; unprefixed names are the HTTP/1
family). -/
inductive TFrame
  | http2RequestPipe (rid : String) (chunk : Chunk)
  | http2RequestPipes (rid : String) (chunks : List Chunk)
  | http2RequestPipeEnd (rid : String)
  | http2RequestPipeError (rid : String) (msg : String)
  | http2ResponsePipe (rid : String) (chunk : Chunk)
  | http2ResponsePipes (rid : String) (chunks : List Chunk)
  | http2ResponsePipeEnd (rid : String)
  | http2ResponsePipeError (rid : String) (msg : String)
  | requestPipe (rid : String) (chunk : Chunk)
  | requestPipes (rid : String) (chunks : List Chunk)
  | requestPipeEnd (rid : String)
  | responsePipe (rid : String) (chunk : Chunk)
  | responsePipes (rid : String) (chunks : List Chunk)
  | responsePipeEnd (rid : String)
  deriving DecidableEq, Repr

/-- What one `_write`/`_writev`/`_final`/`_destroy` body does: emit one
frame, and either hand the completion callback to
`this._socket.conn.once('drain', () => callback())` or call it at once. -/
structure WriteOp where
  emits : TFrame
  ackAfterDrain : Bool
  deriving DecidableEq, Repr

/-- `HTTP2TunnelRequest._write` (lib2.js): emit `http2-request-pipe`, then
await drain before the callback. -/
def HTTP2TunnelRequest_write (rid : String) (chunk : Chunk) : WriteOp :=
  ⟨.http2RequestPipe rid chunk, true⟩

/-- `HTTP2TunnelRequest._writev` (lib2.js). -/
def HTTP2TunnelRequest_writev (rid : String) (chunks : List Chunk) : WriteOp :=
  ⟨.http2RequestPipes rid chunks, true⟩

/-- `HTTP2TunnelRequest._final` (lib2.js). -/
def HTTP2TunnelRequest_final (rid : String) : WriteOp :=
  ⟨.http2RequestPipeEnd rid, true⟩

/-- `HTTP2TunnelRequest._destroy` (lib2.js): with an error it emits the
pipe-error and awaits drain; without one it calls its callback at once and
emits nothing. -/
def HTTP2TunnelRequest_destroy (rid : String) (e : Option String) : Option WriteOp :=
  e.map (fun m => ⟨.http2RequestPipeError rid m, true⟩)

/-- `HTTP2TunnelResponse._write` (lib2.js). -/
def HTTP2TunnelResponse_write (rid : String) (chunk : Chunk) : WriteOp :=
  ⟨.http2ResponsePipe rid chunk, true⟩

/-- `HTTP2TunnelResponse._writev` (lib2.js). -/
def HTTP2TunnelResponse_writev (rid : String) (chunks : List Chunk) : WriteOp :=
  ⟨.http2ResponsePipes rid chunks, true⟩

/-- `HTTP2TunnelResponse._final` (lib2.js). -/
def HTTP2TunnelResponse_final (rid : String) : WriteOp :=
  ⟨.http2ResponsePipeEnd rid, true⟩

/-- `HTTP2TunnelResponse._destroy` (lib2.js). -/
def HTTP2TunnelResponse_destroy (rid : String) (e : Option String) : Option WriteOp :=
  e.map (fun m => ⟨.http2ResponsePipeError rid m, true⟩)

/-- Modelled from the spec: `TunnelRequest._write` of the HTTP/1 stream
class (lib.js, not under src/).  §4.1's backpressure rule — the emitter
MUST await an application-level drain signal from the underlying transport
after emitting `*_DATA` before acknowledging its own upstream source — with
the unprefixed HTTP/1 event name. -/
def TunnelRequest_write (rid : String) (chunk : Chunk) : WriteOp :=
  ⟨.requestPipe rid chunk, true⟩

/-- Modelled from the spec: `TunnelRequest._writev` of lib.js
(`*_DATA_BATCH`), see `TunnelRequest_write`. -/
def TunnelRequest_writev (rid : String) (chunks : List Chunk) : WriteOp :=
  ⟨.requestPipes rid chunks, true⟩

/-- Modelled from the spec: `TunnelRequest._final` of lib.js (the `REQ_END`
half-close), see `TunnelRequest_write`. -/
def TunnelRequest_final (rid : String) : WriteOp :=
  ⟨.requestPipeEnd rid, true⟩

/-- Modelled from the spec: `TunnelResponse._write` of lib.js, see
`TunnelRequest_write`. -/
def TunnelResponse_write (rid : String) (chunk : Chunk) : WriteOp :=
  ⟨.responsePipe rid chunk, true⟩

/-- Modelled from the spec: `TunnelResponse._writev` of lib.js, see
`TunnelRequest_write`. -/
def TunnelResponse_writev (rid : String) (chunks : List Chunk) : WriteOp :=
  ⟨.responsePipes rid chunks, true⟩

/-- Modelled from the spec: `TunnelResponse._final` of lib.js, see
`TunnelRequest_write`. -/
def TunnelResponse_final (rid : String) : WriteOp :=
  ⟨.responsePipeEnd rid, true⟩

/-- An event of the underlying transport (`this._socket.conn`), as the
stream classes observe it: a `drain`, or anything else. -/
inductive TransportEv
  | drain
  | other
  deriving DecidableEq, Repr

/-- One entry of the observable timeline of a write operation. -/
inductive WriteLogEntry
  | emitted (f : TFrame)
  | drained
  | acked
  | otherEv
  deriving DecidableEq, Repr

/-- The timeline after the emission: transport events in order, with a
pending `once('drain')` callback firing at the first drain. -/
def drainScan : List TransportEv → Bool → List WriteLogEntry
  | [], _ => []
  | .drain :: rest, true => .drained :: .acked :: drainScan rest false
  | .drain :: rest, false => .drained :: drainScan rest false
  | .other :: rest, w => .otherEv :: drainScan rest w

/-- Run one write operation against a sequence of transport events: the
frame is emitted first, and the completion callback runs at the first
subsequent drain when the operation awaits drain, at once otherwise. -/
def execWriteOp (op : WriteOp) (evs : List TransportEv) : List WriteLogEntry :=
  if op.ackAfterDrain then .emitted op.emits :: drainScan evs true
  else .emitted op.emits :: .acked :: drainScan evs false

/-- The claim C4 property of one write operation: on every transport event
sequence, the emission is the first timeline entry and any invocation of
the completion callback is strictly preceded by a transport drain that
itself strictly follows the emission. -/
def AckAwaitsDrain (op : WriteOp) : Prop :=
  ∀ evs : List TransportEv, ∀ i : Nat,
    (execWriteOp op evs)[i]? = some WriteLogEntry.acked →
    (execWriteOp op evs)[0]? = some (WriteLogEntry.emitted op.emits) ∧
    ∃ j, 0 < j ∧ j < i ∧ (execWriteOp op evs)[j]? = some WriteLogEntry.drained

/-!
## C7/C10 — the agent dispatcher (http2client-example.js, and the second
client variant)
-/

/-- Lookup in a JS `Map` keyed by request id (`activeRequests.get`). -/
def alistGet {β : Type} (m : List (String × β)) (k : String) : Option β :=
  (m.find? (fun p => p.1 == k)).map (fun p => p.2)

/-- `activeRequests.set(k, v)`. -/
def alistSet {β : Type} : List (String × β) → String → β → List (String × β)
  | [], k, v => [(k, v)]
  | p :: rest, k, v => if p.1 == k then (k, v) :: rest else p :: alistSet rest k v

/-- `activeRequests.delete(k)`. -/
def alistDelete {β : Type} (m : List (String × β)) (k : String) : List (String × β) :=
  m.filter (fun p => !(p.1 == k))

/-- The observable state of one origin HTTP/2 stream, as the inbound frame
handlers drive it. -/
structure OriginStream where
  written : List Chunk
  halfClosed : Bool
  destroyedWith : Option String
  drainWaits : Nat
  deriving DecidableEq, Repr

/-- A fresh stream returned by `localClient.request(headers)`. -/
def originStreamNew : OriginStream :=
  { written := [], halfClosed := false, destroyedWith := none, drainWaits := 0 }

/-- The agent's state: whether `localClient` is a live session
(`localClient && !localClient.destroyed`), how often `createLocalClient()`
was called, and the `activeRequests` map. -/
structure AgentState where
  localClientLive : Bool
  reconnectAttempts : Nat
  activeRequests : List (String × OriginStream)
  deriving DecidableEq, Repr

/-- A frame the agent emits back on the control channel. -/
inductive AgentOut
  | emitHttp2RequestError (rid msg : String)
  | emitRequestError (rid msg : String)
  deriving DecidableEq, Repr

/-- The head of `socket.on('http2-request', ...)` in
http2client-example.js: with no live local client the agent calls
`createLocalClient()` and replies `http2-request-error` with
`'Local HTTP/2 client not connected'`, opening no stream; otherwise it
opens an origin stream and stores it under the request id (the connected
path is modelled only as far as the claim needs). -/
def onHttp2Request (st : AgentState) (rid : String) : AgentState × List AgentOut :=
  if !st.localClientLive then
    ({ st with reconnectAttempts := st.reconnectAttempts + 1 },
      [.emitHttp2RequestError rid "Local HTTP/2 client not connected"])
  else
    ({ st with activeRequests := alistSet st.activeRequests rid originStreamNew }, [])

/-- The head of `socket.on('http2-request', ...)` of the second client
variant: the same guard and message, without the reconnection attempt. -/
def onHttp2RequestAlt (st : AgentState) (rid : String) : AgentState × List AgentOut :=
  if !st.localClientLive then
    (st, [.emitHttp2RequestError rid "Local HTTP/2 client not connected"])
  else
    ({ st with activeRequests := alistSet st.activeRequests rid originStreamNew }, [])

/-- `socket.on('http2-request-pipe')` (http2client-example.js): look the
stream up; when present, write the chunk — subscribing `once('drain')` when
the write reports backpressure (`wOk = false`); when absent, nothing
happens. -/
def onHttp2RequestPipe (st : AgentState) (rid : String) (chunk : Chunk)
    (wOk : Bool) : AgentState × List AgentOut :=
  match alistGet st.activeRequests rid with
  | none => (st, [])
  | some s =>
    let s1 : OriginStream :=
      { s with
          written := s.written ++ [chunk]
          drainWaits := s.drainWaits + (if wOk then 0 else 1) }
    ({ st with activeRequests := alistSet st.activeRequests rid s1 }, [])

/-- The chunk loop of `socket.on('http2-request-pipes')`: write chunks in
order, stopping (after a `once('drain')` subscription) at the first write
that reports backpressure; `wOk n` is the result of the n-th write. -/
def writeChunksBP (s : OriginStream) : List Chunk → (Nat → Bool) → Nat → OriginStream
  | [], _, _ => s
  | c :: cs, wOk, n =>
    if wOk n then writeChunksBP { s with written := s.written ++ [c] } cs wOk (n + 1)
    else
      { s with
          written := s.written ++ [c]
          drainWaits := s.drainWaits + 1 }

/-- `socket.on('http2-request-pipes')` (http2client-example.js). -/
def onHttp2RequestPipes (st : AgentState) (rid : String) (chunks : List Chunk)
    (wOk : Nat → Bool) : AgentState × List AgentOut :=
  match alistGet st.activeRequests rid with
  | none => (st, [])
  | some s =>
    let s1 := writeChunksBP s chunks wOk 0
    ({ st with activeRequests := alistSet st.activeRequests rid s1 }, [])

/-- `socket.on('http2-request-pipe-end')` (http2client-example.js):
`stream.end()` when the id is known, nothing otherwise. -/
def onHttp2RequestPipeEnd (st : AgentState) (rid : String) :
    AgentState × List AgentOut :=
  match alistGet st.activeRequests rid with
  | none => (st, [])
  | some s =>
    let s1 : OriginStream := { s with halfClosed := true }
    ({ st with activeRequests := alistSet st.activeRequests rid s1 }, [])

/-- `socket.on('http2-request-pipe-error')` (http2client-example.js):
`stream.destroy(new Error(error))` and `activeRequests.delete(requestId)`
when the id is known, nothing otherwise. -/
def onHttp2RequestPipeError (st : AgentState) (rid msg : String) :
    AgentState × List AgentOut :=
  match alistGet st.activeRequests rid with
  | none => (st, [])
  | some _ => ({ st with activeRequests := alistDelete st.activeRequests rid }, [])

/-- `socket.on('request-pipe')` of the second client variant: plain
`stream.write(chunk)` without a backpressure branch. -/
def onRequestPipe (st : AgentState) (rid : String) (chunk : Chunk) :
    AgentState × List AgentOut :=
  match alistGet st.activeRequests rid with
  | none => (st, [])
  | some s =>
    let s1 : OriginStream := { s with written := s.written ++ [chunk] }
    ({ st with activeRequests := alistSet st.activeRequests rid s1 }, [])

/-- `socket.on('request-pipes')` of the second client variant. -/
def onRequestPipes (st : AgentState) (rid : String) (chunks : List Chunk) :
    AgentState × List AgentOut :=
  match alistGet st.activeRequests rid with
  | none => (st, [])
  | some s =>
    let s1 : OriginStream := { s with written := s.written ++ chunks }
    ({ st with activeRequests := alistSet st.activeRequests rid s1 }, [])

/-- `socket.on('request-pipe-end')` of the second client variant. -/
def onRequestPipeEnd (st : AgentState) (rid : String) : AgentState × List AgentOut :=
  match alistGet st.activeRequests rid with
  | none => (st, [])
  | some s =>
    let s1 : OriginStream := { s with halfClosed := true }
    ({ st with activeRequests := alistSet st.activeRequests rid s1 }, [])

/-- `socket.on('request-pipe-error')` of the second client variant. -/
def onRequestPipeError (st : AgentState) (rid msg : String) :
    AgentState × List AgentOut :=
  match alistGet st.activeRequests rid with
  | none => (st, [])
  | some _ => ({ st with activeRequests := alistDelete st.activeRequests rid }, [])

/-!
## Theorems
-/

theorem tunnelCompare_neg {y b : TunnelSocketEntry}
    (h : tunnelCompare y b < 0) : tunnelPriority b ≤ tunnelPriority y := by
  unfold tunnelCompare at h
  unfold tunnelPriority
  by_cases hy : y.pathPrefix = "" <;> by_cases hb : b.pathPrefix = "" <;>
    (simp [hy, hb] at h ⊢; try omega)

theorem tunnelCompare_nonneg {y b : TunnelSocketEntry}
    (h : ¬ tunnelCompare y b < 0) : tunnelPriority y ≤ tunnelPriority b := by
  unfold tunnelCompare at h
  unfold tunnelPriority
  by_cases hy : y.pathPrefix = "" <;> by_cases hb : b.pathPrefix = "" <;>
    (simp [hy, hb] at h ⊢; try omega)

theorem sortFirst_fold_spec (l : List TunnelSocketEntry) :
    ∀ x : TunnelSocketEntry,
      (l.foldl (fun best y => if tunnelCompare y best < 0 then y else best) x) ∈ x :: l ∧
      tunnelPriority x ≤
        tunnelPriority (l.foldl (fun best y => if tunnelCompare y best < 0 then y else best) x) ∧
      ∀ y ∈ l, tunnelPriority y ≤
        tunnelPriority (l.foldl (fun best y => if tunnelCompare y best < 0 then y else best) x) := by
  induction l with
  | nil => intro x; simp
  | cons y ys ih =>
    intro x
    simp only [List.foldl_cons]
    by_cases h : tunnelCompare y x < 0
    · simp only [if_pos h]
      obtain ⟨hmem, hx, hall⟩ := ih y
      refine ⟨?_, ?_, ?_⟩
      · rcases List.mem_cons.mp hmem with hm | hm
        · exact List.mem_cons_of_mem _ (by simp [hm])
        · exact List.mem_cons_of_mem _ (List.mem_cons_of_mem _ hm)
      · exact le_trans (tunnelCompare_neg h) hx
      · intro z hz
        rcases List.mem_cons.mp hz with hz | hz
        · exact hz ▸ hx
        · exact hall z hz
    · simp only [if_neg h]
      obtain ⟨hmem, hx, hall⟩ := ih x
      refine ⟨?_, ?_, ?_⟩
      · rcases List.mem_cons.mp hmem with hm | hm
        · simp [hm]
        · exact List.mem_cons_of_mem _ (List.mem_cons_of_mem _ hm)
      · exact hx
      · intro z hz
        rcases List.mem_cons.mp hz with hz | hz
        · exact hz ▸ le_trans (tunnelCompare_nonneg h) hx
        · exact hall z hz

/-- Claim C1: for every list of live registrations, every host `h` and every
request URL `u`, `getAvailableTunnelSocket` returns a registration from the
set of registrations whose host equals `h` and whose `pathPrefix` is empty
or a prefix of `u`, of maximal routing priority (longest `pathPrefix`, any
non-empty `pathPrefix` beating the empty wildcard), and returns `null`
exactly when that set is empty. -/
theorem c1_resolve_longest_match (tunnelSockets : List TunnelSocketEntry)
    (host url : String) :
    (∀ s, s ∈ tunnelSockets.filter (tunnelMatches host url) ↔
        s ∈ tunnelSockets ∧ s.host = host ∧
          (s.pathPrefix = "" ∨ jsStartsWith url s.pathPrefix = true)) ∧
    (getAvailableTunnelSocket tunnelSockets host url = none ↔
        tunnelSockets.filter (tunnelMatches host url) = []) ∧
    (∀ r, getAvailableTunnelSocket tunnelSockets host url = some r →
        r ∈ tunnelSockets.filter (tunnelMatches host url) ∧
        ∀ s ∈ tunnelSockets.filter (tunnelMatches host url),
          tunnelPriority s ≤ tunnelPriority r) := by
  refine ⟨?_, ?_, ?_⟩
  · intro s
    simp [List.mem_filter, tunnelMatches, and_assoc]
  · unfold getAvailableTunnelSocket
    cases tunnelSockets.filter (tunnelMatches host url) with
    | nil => simp [sortFirst]
    | cons x xs => simp [sortFirst]
  · intro r hr
    unfold getAvailableTunnelSocket at hr
    cases hfl : tunnelSockets.filter (tunnelMatches host url) with
    | nil => rw [hfl] at hr; simp [sortFirst] at hr
    | cons x xs =>
      rw [hfl] at hr
      simp only [sortFirst, Option.some.injEq] at hr
      obtain ⟨hmem, hx, hall⟩ := sortFirst_fold_spec xs x
      rw [hr] at hmem hx hall
      refine ⟨hmem, ?_⟩
      intro s hs
      rcases List.mem_cons.mp hs with h | h
      · exact h ▸ hx
      · exact hall s h

theorem c1_resolve_longest_match_witness :
    getAvailableTunnelSocket regsDemo "h" "/api_v1/x" =
      some { host := "h", pathPrefix := "/api_v1", sid := 1, supportsHTTP2 := true } ∧
    ({ host := "h", pathPrefix := "/api_v1", sid := 1, supportsHTTP2 := true } ∈
        regsDemo.filter (tunnelMatches "h" "/api_v1/x") ∧
      ∀ s ∈ regsDemo.filter (tunnelMatches "h" "/api_v1/x"),
        tunnelPriority s ≤ tunnelPriority
          { host := "h", pathPrefix := "/api_v1", sid := 1, supportsHTTP2 := true }) :=
  ⟨by decide,
   (c1_resolve_longest_match regsDemo "h" "/api_v1/x").2.2
     { host := "h", pathPrefix := "/api_v1", sid := 1, supportsHTTP2 := true } (by decide)⟩

/-- Claim C3 fails as stated: the source tests `includes('application/grpc')`
(substring), not "begins with".  A `Content-Type` that merely contains the
string is dispatched on the HTTP/2 family although the claim's condition
(HTTP/2 request, or Content-Type beginning with `application/grpc`) is
false. -/
theorem c3_flavor_counterexample :
    handleRequestFlavor "1.1" (some "x-application/grpc") true = Flavor.http2 ∧
    ¬("1.1" = "2.0" ∨ jsStartsWith "x-application/grpc" "application/grpc" = true) := by
  decide

/-- Claim C3 (amended): the tunneled flavor is http2 iff (the incoming
request is HTTP/2, or its Content-Type header is present, non-empty and
contains `application/grpc` as a substring) and the chosen agent advertised
`supports-http2 = "true"`; in every other case the flavor is http1. -/
theorem c3_flavor_selection (httpVersion : String) (contentType : Option String)
    (supportsHTTP2 : Bool) :
    (handleRequestFlavor httpVersion contentType supportsHTTP2 = Flavor.http2 ↔
      ((httpVersion = "2.0" ∨
          (jsTruthy contentType = true ∧
            jsIncludes (contentType.getD "") "application/grpc" = true)) ∧
        supportsHTTP2 = true)) ∧
    (handleRequestFlavor httpVersion contentType supportsHTTP2 = Flavor.http1 ↔
      ¬((httpVersion = "2.0" ∨
          (jsTruthy contentType = true ∧
            jsIncludes (contentType.getD "") "application/grpc" = true)) ∧
        supportsHTTP2 = true)) := by
  unfold handleRequestFlavor isHttp2Request
  by_cases h1 : httpVersion == "2.0" <;>
    by_cases h2 : jsTruthy contentType <;>
      by_cases h3 : jsIncludes (contentType.getD "") "application/grpc" <;>
        by_cases h4 : supportsHTTP2 <;>
          simp_all

theorem c3_flavor_selection_witness :
    handleRequestFlavor "2.0" none true = Flavor.http2 :=
  (c3_flavor_selection "2.0" none true).1.mpr (by decide)

theorem getHeader_setHeader_self (hs : Headers) (k v : String) :
    getHeader (setHeader hs k v) k = some v := by
  induction hs with
  | nil => simp [setHeader, getHeader, List.find?]
  | cons p rest ih =>
    by_cases h : p.1 == k
    · simp [setHeader, h, getHeader, List.find?]
    · simp only [setHeader, if_neg h]
      simpa [getHeader, List.find?, h] using ih

theorem getHeader_setHeader_ne (hs : Headers) {k k' : String} (h : k' ≠ k) (v : String) :
    getHeader (setHeader hs k v) k' = getHeader hs k' := by
  have hkk : (k == k') = false := beq_eq_false_iff_ne.mpr (Ne.symm h)
  induction hs with
  | nil => simp [setHeader, getHeader, List.find?, hkk]
  | cons p rest ih =>
    by_cases hp : p.1 == k
    · have hpk : p.1 = k := by simpa using hp
      simp [setHeader, hp, getHeader, List.find?, hpk, hkk]
    · simp only [setHeader, if_neg hp]
      by_cases hp' : p.1 == k'
      · simp [getHeader, List.find?, hp']
      · simp only [getHeader, List.find?, hp'] at ih ⊢
        exact ih

/-- Claim C8 fails as stated: a present-but-empty `x-forwarded-host` header
is falsy in JS (`req.headers['x-forwarded-host'] || host`), so the source
overwrites it with the incoming Host although the header was not absent. -/
theorem c8_forwarded_headers_counterexample :
    getHeader [("host", "example.com"), ("x-forwarded-host", "")] "x-forwarded-host" =
      some "" ∧
    getHeader
      (getReqHeaders false "1.2.3.4" [("host", "example.com"), ("x-forwarded-host", "")])
      "x-forwarded-host" = some "example.com" := by
  decide

/-- Claim C8 (amended): the tunneled header set equals the incoming headers
except that `x-forwarded-for`, `x-forwarded-port` and `x-forwarded-proto`
are each set to the prior value comma-concatenated with the new value (the
new value alone when the prior value is absent or empty), with the port
defaulting to 443/80 by TLS (stated here for Host headers carrying no
explicit port) and the proto being `https`/`http` accordingly, and
`x-forwarded-host` is set to the incoming Host exactly when it was absent
or empty; all other headers are unchanged. -/
theorem c8_forwarded_headers (encrypted : Bool) (remoteAddress : String)
    (reqHeaders : Headers)
    (hhost : splitOnChar ':' ((getHeader reqHeaders "host").getD "").toList =
      [((getHeader reqHeaders "host").getD "").toList]) :
    (∀ k, k ≠ "x-forwarded-for" → k ≠ "x-forwarded-port" → k ≠ "x-forwarded-proto" →
      k ≠ "x-forwarded-host" →
      getHeader (getReqHeaders encrypted remoteAddress reqHeaders) k =
        getHeader reqHeaders k) ∧
    getHeader (getReqHeaders encrypted remoteAddress reqHeaders) "x-forwarded-for" =
      some (jsAppendForwarded (getHeader reqHeaders "x-forwarded-for") remoteAddress) ∧
    getHeader (getReqHeaders encrypted remoteAddress reqHeaders) "x-forwarded-port" =
      some (jsAppendForwarded (getHeader reqHeaders "x-forwarded-port")
        (if encrypted then "443" else "80")) ∧
    getHeader (getReqHeaders encrypted remoteAddress reqHeaders) "x-forwarded-proto" =
      some (jsAppendForwarded (getHeader reqHeaders "x-forwarded-proto")
        (if encrypted then "https" else "http")) ∧
    getHeader (getReqHeaders encrypted remoteAddress reqHeaders) "x-forwarded-host" =
      some (if jsTruthy (getHeader reqHeaders "x-forwarded-host")
        then (getHeader reqHeaders "x-forwarded-host").getD ""
        else (getHeader reqHeaders "host").getD "") := by
  have hport : urlPort encrypted ((getHeader reqHeaders "host").getD "") = "" := by
    unfold urlPort
    rw [hhost]
  refine ⟨?_, ?_, ?_, ?_, ?_⟩
  · intro k h1 h2 h3 h4
    unfold getReqHeaders
    rw [getHeader_setHeader_ne _ h4, getHeader_setHeader_ne _ h3,
      getHeader_setHeader_ne _ h2, getHeader_setHeader_ne _ h1]
  · unfold getReqHeaders
    rw [getHeader_setHeader_ne _ (by decide), getHeader_setHeader_ne _ (by decide),
      getHeader_setHeader_ne _ (by decide), getHeader_setHeader_self]
  · unfold getReqHeaders
    rw [getHeader_setHeader_ne _ (by decide), getHeader_setHeader_ne _ (by decide),
      getHeader_setHeader_self, hport]
    simp
  · unfold getReqHeaders
    rw [getHeader_setHeader_ne _ (by decide), getHeader_setHeader_self]
  · unfold getReqHeaders
    rw [getHeader_setHeader_self]

theorem c8_forwarded_headers_witness :
    getHeader (getReqHeaders false "9.9.9.9" [("host", "example.com"), ("accept", "x")])
      "x-forwarded-for" =
      some (jsAppendForwarded
        (getHeader [("host", "example.com"), ("accept", "x")] "x-forwarded-for")
        "9.9.9.9") :=
  (c8_forwarded_headers false "9.9.9.9" [("host", "example.com"), ("accept", "x")]
    (by decide)).2.1

/-- Claim C9 names a code bug: the generator handler itself answers 404/200
with the token/401 exactly as claimed, but a request target carrying the
`?username=U&password=P` query never reaches it — the dispatcher compares
the full `req.url` (query string included) against `/tunnel_jwt_generator`
and sends every such request to the tunnel handler, although the
repository's own setup guide documents fetching the token with exactly such
a URL. -/
theorem c9_jwt_generator_unreachable :
    dispatchEdgeRequest "/tunnel_jwt_generator?username=u&password=p" = EdgeRoute.tunnel ∧
    dispatchEdgeRequest "/tunnel_jwt_generator" = EdgeRoute.express ∧
    tunnelJwtGenerator
      { jwtGeneratorUsername := some "u", jwtGeneratorPassword := some "p",
        verifyToken := some "v", secretKey := some "s" }
      (some "u") (some "p") = (200, HttpBody.signedToken (some "v") (some "s")) ∧
    tunnelJwtGenerator
      { jwtGeneratorUsername := none, jwtGeneratorPassword := none,
        verifyToken := some "v", secretKey := some "s" }
      (some "u") (some "p") = (404, HttpBody.text "Not found") ∧
    tunnelJwtGenerator
      { jwtGeneratorUsername := some "u", jwtGeneratorPassword := some "p",
        verifyToken := some "v", secretKey := some "s" }
      (some "u") (some "wrong") = (401, HttpBody.text "Forbidden") := by
  decide

theorem edgeStep_preserves_unique (st : List TunnelSocketEntry) (op : EdgeOp)
    (h : uniqueTunnelKeys st) : uniqueTunnelKeys (edgeStep st op).1 := by
  cases op with
  | connect host pathPrefix s2 authOk sid =>
    by_cases hdup : (getTunnelSocket st host pathPrefix).isSome
    · simpa [edgeStep, hdup] using h
    · by_cases hauth : authOk
      · have hstep : (edgeStep st (EdgeOp.connect host pathPrefix s2 authOk sid)).1 =
            st ++ [⟨host, pathPrefix, sid, s2⟩] := by
          simp [edgeStep, hdup, hauth]
        rw [hstep]
        unfold uniqueTunnelKeys at h ⊢
        rw [List.pairwise_append]
        refine ⟨h, List.pairwise_singleton _ _, ?_⟩
        intro a ha b hb
        have hb' : b = (⟨host, pathPrefix, sid, s2⟩ : TunnelSocketEntry) := by
          simpa using hb
        subst hb'
        intro hc
        obtain ⟨h1, h2⟩ := hc
        have hnone : getTunnelSocket st host pathPrefix = none :=
          Option.not_isSome_iff_eq_none.mp hdup
        have hfa := List.find?_eq_none.mp hnone a ha
        simp only [Bool.and_eq_true, beq_iff_eq, not_and] at hfa
        exact hfa h1 h2
      · simpa [edgeStep, hdup, hauth] using h
  | disconnect host pathPrefix =>
    unfold edgeStep removeTunnelSocket
    exact List.Pairwise.filter _ h

theorem edgeRun_unique (ops : List EdgeOp) : uniqueTunnelKeys (edgeRun ops) := by
  suffices hgen : ∀ (l : List EdgeOp) (st : List TunnelSocketEntry),
      uniqueTunnelKeys st → uniqueTunnelKeys (l.foldl (fun st op => (edgeStep st op).1) st) by
    exact hgen ops [] (List.Pairwise.nil)
  intro l
  induction l with
  | nil => intro st h; simpa using h
  | cons op rest ih =>
    intro st h
    simpa using ih _ (edgeStep_preserves_unique st op h)

/-- Claim C5: every reachable registry state has at most one live
registration per `(host, pathPrefix)` pair; a handshake whose key is already
live is rejected with `"<host> has a existing connection"` and leaves the
registry unchanged (so the original registration keeps serving); and a
disconnect removes the registration with the captured key. -/
theorem c5_registration_lifecycle (ops : List EdgeOp) :
    uniqueTunnelKeys (edgeRun ops) ∧
    (∀ host pathPrefix s2 authOk sid,
      (getTunnelSocket (edgeRun ops) host pathPrefix).isSome →
      edgeStep (edgeRun ops) (.connect host pathPrefix s2 authOk sid) =
        (edgeRun ops, some (host ++ " has a existing connection"))) ∧
    (∀ host pathPrefix,
      getTunnelSocket (edgeRun (ops ++ [.disconnect host pathPrefix])) host pathPrefix =
        none) := by
  refine ⟨edgeRun_unique ops, ?_, ?_⟩
  · intro host pathPrefix s2 authOk sid hdup
    simp [edgeStep, hdup]
  · intro host pathPrefix
    have : edgeRun (ops ++ [.disconnect host pathPrefix]) =
        removeTunnelSocket (edgeRun ops) host pathPrefix := by
      simp [edgeRun, List.foldl_append, edgeStep]
    rw [this]
    unfold getTunnelSocket removeTunnelSocket
    rw [List.find?_eq_none]
    intro x hx
    have hmem := (List.mem_filter.mp hx).2
    simp only [Bool.not_eq_eq_eq_not, Bool.not_true] at hmem
    simp [hmem]

theorem c5_registration_lifecycle_witness :
    uniqueTunnelKeys (edgeRun [EdgeOp.connect "h" "/p" true true 0]) ∧
    edgeStep (edgeRun [EdgeOp.connect "h" "/p" true true 0])
      (EdgeOp.connect "h" "/p" false true 1) =
      (edgeRun [EdgeOp.connect "h" "/p" true true 0],
        some ("h" ++ " has a existing connection")) :=
  ⟨(c5_registration_lifecycle [EdgeOp.connect "h" "/p" true true 0]).1,
   (c5_registration_lifecycle [EdgeOp.connect "h" "/p" true true 0]).2.1
     "h" "/p" false true 1 (by decide)⟩

/-- Claim C2: a frame whose id differs from a handler's own id is a
complete no-op for that handler (no push, no event, no state change), so
the effects observed for a request depend only on the subsequence of frames
carrying its id — in particular, inserting or removing frames of any other
id (for example, cancelling another request) changes nothing that this
request's handlers deliver. -/
theorem c2_request_isolation (myId : String) :
    (∀ st f, f.rid ≠ myId → h2respStep myId st f = (st, [])) ∧
    (∀ st fs, h2respRun myId st fs =
      h2respRun myId st (fs.filter (fun f => f.rid == myId))) ∧
    (∀ st fs fs', fs.filter (fun f => f.rid == myId) =
        fs'.filter (fun f => f.rid == myId) →
      h2respRun myId st fs = h2respRun myId st fs') := by
  have hno : ∀ st f, f.rid ≠ myId → h2respStep myId st f = (st, []) := by
    intro st f h
    cases f <;> (simp only [H2Frame.rid] at h; simp [h2respStep, h])
  have hfilt : ∀ fs st, h2respRun myId st fs =
      h2respRun myId st (fs.filter (fun f => f.rid == myId)) := by
    intro fs
    induction fs with
    | nil => intro st; rfl
    | cons f fs ih =>
      intro st
      by_cases hid : f.rid = myId
      · have hkeep : (fun f => f.rid == myId) f = true := by simp [hid]
        rw [List.filter_cons, if_pos hkeep]
        simp only [h2respRun]
        rw [ih ((h2respStep myId st f).1)]
      · have hdrop : ¬ ((fun f => f.rid == myId) f = true) := by simp [hid]
        rw [List.filter_cons, if_neg hdrop]
        simp only [h2respRun]
        rw [hno st f hid]
        simpa using ih st
  exact ⟨hno, fun st fs => hfilt fs st,
    fun st fs fs' h => by rw [hfilt fs st, hfilt fs' st, h]⟩

theorem c2_request_isolation_witness :
    h2respStep "a" h2respInit (H2Frame.responsePipe "b" [1]) = (h2respInit, []) ∧
    h2respRun "a" h2respInit
        [H2Frame.responsePipe "b" [1], H2Frame.responsePipe "a" [2]] =
      h2respRun "a" h2respInit [H2Frame.responsePipe "a" [2]] :=
  ⟨(c2_request_isolation "a").1 h2respInit (H2Frame.responsePipe "b" [1]) (by decide),
   (c2_request_isolation "a").2.2 h2respInit
     [H2Frame.responsePipe "b" [1], H2Frame.responsePipe "a" [2]]
     [H2Frame.responsePipe "a" [2]] (by decide)⟩

/-- Claim C6 fails as stated: a `http2-response-pipe-error` frame (a
`RES_ERROR`-class frame) received before the `RESPONSE` frame does NOT
produce `502 Bad Gateway` / `Request error` — it destroys the tunnel stream
without writing to the client — and it does not detach the response
handler: a later `RESPONSE` for the same id is still written to the
client. -/
theorem c6_pipe_error_counterexample :
    (edgeResRun "r" edgeResInit
        [H2Frame.responsePipeError "r" "boom",
         H2Frame.response "r" 200 "OK" []]).resStatusCode ≠ some 502 ∧
    (edgeResRun "r" edgeResInit
        [H2Frame.responsePipeError "r" "boom",
         H2Frame.response "r" 200 "OK" []]).resEndBody ≠ some "Request error" ∧
    (edgeResRun "r" edgeResInit
        [H2Frame.responsePipeError "r" "boom",
         H2Frame.response "r" 200 "OK" []]).resHead = some (200, "OK", []) := by
  decide

theorem edgeResStep_other (myId : String) (st : EdgeResState) (f : H2Frame)
    (h : f.rid ≠ myId) : edgeResStep myId st f = st := by
  unfold edgeResStep
  have hstep : h2respStep myId st.lib f = (st.lib, []) := by
    cases f <;> (simp only [H2Frame.rid] at h; simp [h2respStep, h])
  rw [hstep]
  simp [List.foldl]

/-- After the request-error path ran, every lib2 listener is detached, so
no later frame changes the edge state at all. -/
theorem edgeResStep_detached (myId : String) (st : EdgeResState) (f : H2Frame)
    (h1 : st.lib.onResponseAttached = false) (h2 : st.lib.pipeAttached = false)
    (h3 : st.lib.onRequestErrorAttached = false) :
    edgeResStep myId st f = st := by
  unfold edgeResStep
  have hstep : h2respStep myId st.lib f = (st.lib, []) := by
    cases f <;> simp [h2respStep, h1, h2, h3]
  rw [hstep]
  simp [List.foldl]

theorem responsePendingInv_step (myId : String) (st : EdgeResState) (f : H2Frame)
    (hf : leavesResponsePending myId f) (h : responsePendingInv st) :
    responsePendingInv (edgeResStep myId st f) := by
  obtain ⟨ha, hb, hc0, hd⟩ := h
  by_cases hid : f.rid = myId
  · cases f with
    | response i sc sm hs => exact absurd hid hf
    | responsePipeError i msg => exact absurd hid hf
    | responsePipeEnd i data => exact absurd hid hf
    | requestError i msg => exact absurd hid hf
    | responsePipe i c =>
      simp only [H2Frame.rid] at hid
      by_cases hp : st.lib.pipeAttached = true
      · simp [edgeResStep, h2respStep, hid, hp, edgeApplyEv, responsePendingInv,
          ha, hb, hc0, hd]
      · simp [edgeResStep, h2respStep, hid, hp, edgeApplyEv, responsePendingInv,
          ha, hb, hc0, hd]
    | responsePipes i cs =>
      simp only [H2Frame.rid] at hid
      by_cases hp : st.lib.pipeAttached = true
      · simp only [edgeResStep, h2respStep, hid, hp, if_pos, true_and, and_true]
        have : ∀ (l : List Chunk) (s : EdgeResState), responsePendingInv s →
            responsePendingInv ((l.map RespEv.push).foldl edgeApplyEv s) := by
          intro l
          induction l with
          | nil => intro s hs; simpa using hs
          | cons c cs ih =>
            intro s hs
            obtain ⟨h1, h2, h3, h4⟩ := hs
            simp only [List.map_cons, List.foldl_cons]
            apply ih
            simp [edgeApplyEv, h1, h2, h3, h4, responsePendingInv]
        apply this
        simp [responsePendingInv, ha, hb, hc0, hd]
      · simp [edgeResStep, h2respStep, hid, hp, edgeApplyEv, responsePendingInv,
          ha, hb, hc0, hd]
    | responseTrailers i t =>
      simp only [H2Frame.rid] at hid
      by_cases hp : st.lib.pipeAttached = true
      · simp [edgeResStep, h2respStep, hid, hp, edgeApplyEv, responsePendingInv,
          ha, hb, hc0, hd]
      · simp [edgeResStep, h2respStep, hid, hp, edgeApplyEv, responsePendingInv,
          ha, hb, hc0, hd]
  · rw [edgeResStep_other myId st f hid]
    exact ⟨ha, hb, hc0, hd⟩

theorem responsePendingInv_run (myId : String) (pre : List H2Frame)
    (hpre : ∀ f ∈ pre, leavesResponsePending myId f) :
    ∀ st, responsePendingInv st → responsePendingInv (edgeResRun myId st pre) := by
  induction pre with
  | nil => intro st h; exact h
  | cons f fs ih =>
    intro st h
    have hf := hpre f (List.mem_cons_self f fs)
    have hrest : ∀ g ∈ fs, leavesResponsePending myId g := by
      intro g hg; exact hpre g (List.mem_cons_of_mem f hg)
    exact ih hrest _ (responsePendingInv_step myId st f hf h)

theorem edgeResRun_append (myId : String) (l1 l2 : List H2Frame) :
    ∀ st, edgeResRun myId st (l1 ++ l2) = edgeResRun myId (edgeResRun myId st l1) l2 := by
  induction l1 with
  | nil => intro st; rfl
  | cons f fs ih => intro st; simp only [List.cons_append, edgeResRun]; exact ih _

theorem edgeResRun_detached (myId : String) (post : List H2Frame) :
    ∀ st : EdgeResState, st.lib.onResponseAttached = false →
      st.lib.pipeAttached = false → st.lib.onRequestErrorAttached = false →
      edgeResRun myId st post = st := by
  induction post with
  | nil => intro st _ _ _; rfl
  | cons f fs ih =>
    intro st h1 h2 h3
    simp only [edgeResRun]
    rw [edgeResStep_detached myId st f h1 h2 h3]
    exact ih st h1 h2 h3

/-- Claim C6 (amended): if an `http2-request-error` frame for a request id
is received before any `response`, `response-pipe-end` or
`response-pipe-error` frame for that id, the public client receives status
502 with body `Request error`, and every listener for that id is detached,
so no later `RESPONSE` for the same id is written to the client.  (A
`response-pipe-error` frame, by contrast, produces no 502 — see the
counterexample.) -/
theorem c6_request_error_502 (myId msg : String) (pre post : List H2Frame)
    (hpre : ∀ f ∈ pre, leavesResponsePending myId f) :
    (edgeResRun myId edgeResInit
        (pre ++ H2Frame.requestError myId msg :: post)).resStatusCode = some 502 ∧
    (edgeResRun myId edgeResInit
        (pre ++ H2Frame.requestError myId msg :: post)).resEndBody =
      some "Request error" ∧
    (edgeResRun myId edgeResInit
        (pre ++ H2Frame.requestError myId msg :: post)).resHead = none := by
  have hinit : responsePendingInv edgeResInit := by
    simp [responsePendingInv, edgeResInit, h2respInit]
  have hmid := responsePendingInv_run myId pre hpre edgeResInit hinit
  obtain ⟨ha, hb, hc0, hd⟩ := hmid
  rw [edgeResRun_append]
  simp only [edgeResRun]
  have hstep : h2respStep myId (edgeResRun myId edgeResInit pre).lib
      (H2Frame.requestError myId msg) =
      ({ (edgeResRun myId edgeResInit pre).lib with
          onRequestErrorAttached := false
          onResponseAttached := false
          pipeAttached := false }, [.requestError msg]) := by
    simp [h2respStep, ha]
  have herr : edgeResStep myId (edgeResRun myId edgeResInit pre)
      (H2Frame.requestError myId msg) =
      { (edgeResRun myId edgeResInit pre) with
          lib := { (edgeResRun myId edgeResInit pre).lib with
            onRequestErrorAttached := false
            onResponseAttached := false
            pipeAttached := false }
          onRequestErrorEdge := false
          onResponseEdge := false
          resStatusCode := some 502
          resEndBody := some "Request error"
          resEnded := true } := by
    unfold edgeResStep
    rw [hstep]
    simp [edgeApplyEv, hb, hc0]
  rw [herr, edgeResRun_detached myId post _ (by simp) (by simp) (by simp)]
  simp [hd]

theorem c6_request_error_502_witness :
    (edgeResRun "r" edgeResInit
        ([H2Frame.responsePipe "r" [7]] ++ H2Frame.requestError "r" "m" ::
          [H2Frame.response "r" 200 "OK" []])).resStatusCode = some 502 ∧
    (edgeResRun "r" edgeResInit
        ([H2Frame.responsePipe "r" [7]] ++ H2Frame.requestError "r" "m" ::
          [H2Frame.response "r" 200 "OK" []])).resEndBody = some "Request error" ∧
    (edgeResRun "r" edgeResInit
        ([H2Frame.responsePipe "r" [7]] ++ H2Frame.requestError "r" "m" ::
          [H2Frame.response "r" 200 "OK" []])).resHead = none :=
  c6_request_error_502 "r" "m" [H2Frame.responsePipe "r" [7]]
    [H2Frame.response "r" 200 "OK" []]
    (by
      intro f hf
      rw [List.mem_singleton] at hf
      subst hf
      exact trivial)

theorem drainScan_false_no_ack :
    ∀ (evs : List TransportEv) (n : Nat),
      (drainScan evs false)[n]? ≠ some WriteLogEntry.acked := by
  intro evs
  induction evs with
  | nil => intro n; simp [drainScan]
  | cons e rest ih =>
    intro n
    cases e with
    | drain =>
      cases n with
      | zero => simp [drainScan]
      | succ m => simpa [drainScan] using ih m
    | other =>
      cases n with
      | zero => simp [drainScan]
      | succ m => simpa [drainScan] using ih m

theorem drainScan_true_ack_after_drain :
    ∀ (evs : List TransportEv) (i : Nat),
      (drainScan evs true)[i]? = some WriteLogEntry.acked →
      ∃ j, j < i ∧ (drainScan evs true)[j]? = some WriteLogEntry.drained := by
  intro evs
  induction evs with
  | nil => intro i h; simp [drainScan] at h
  | cons e rest ih =>
    cases e with
    | drain =>
      intro i h
      match i with
      | 0 => simp [drainScan] at h
      | 1 => exact ⟨0, by omega, by simp [drainScan]⟩
      | n + 2 =>
        simp only [drainScan, List.getElem?_cons_succ] at h
        exact absurd h (drainScan_false_no_ack rest n)
    | other =>
      intro i h
      match i with
      | 0 => simp [drainScan] at h
      | m + 1 =>
        simp only [drainScan, List.getElem?_cons_succ] at h
        obtain ⟨j, hj, hdj⟩ := ih m h
        exact ⟨j + 1, by omega, by simpa [drainScan] using hdj⟩

theorem ackAwaitsDrain_of_flag (op : WriteOp) (h : op.ackAfterDrain = true) :
    AckAwaitsDrain op := by
  intro evs i hack
  have hexec : execWriteOp op evs =
      WriteLogEntry.emitted op.emits :: drainScan evs true := by
    simp [execWriteOp, h]
  rw [hexec] at hack ⊢
  refine ⟨by simp, ?_⟩
  match i with
  | 0 => simp at hack
  | m + 1 =>
    simp only [List.getElem?_cons_succ] at hack
    obtain ⟨j, hj, hdj⟩ := drainScan_true_ack_after_drain evs m hack
    exact ⟨j + 1, by omega, by omega, by simpa using hdj⟩

/-- Claim C4: for every body chunk, chunk batch or end frame emitted by
`_write`, `_writev` or `_final` of `HTTP2TunnelRequest` and
`HTTP2TunnelResponse` (and of their HTTP/1 analogues, modelled from the
spec), the completion callback that acknowledges the upstream source is
never invoked before the underlying transport emits a drain signal
following that emission. -/
theorem c4_backpressure_ack_after_drain :
    (∀ rid chunk, AckAwaitsDrain (HTTP2TunnelRequest_write rid chunk)) ∧
    (∀ rid chunks, AckAwaitsDrain (HTTP2TunnelRequest_writev rid chunks)) ∧
    (∀ rid, AckAwaitsDrain (HTTP2TunnelRequest_final rid)) ∧
    (∀ rid chunk, AckAwaitsDrain (HTTP2TunnelResponse_write rid chunk)) ∧
    (∀ rid chunks, AckAwaitsDrain (HTTP2TunnelResponse_writev rid chunks)) ∧
    (∀ rid, AckAwaitsDrain (HTTP2TunnelResponse_final rid)) ∧
    (∀ rid chunk, AckAwaitsDrain (TunnelRequest_write rid chunk)) ∧
    (∀ rid chunks, AckAwaitsDrain (TunnelRequest_writev rid chunks)) ∧
    (∀ rid, AckAwaitsDrain (TunnelRequest_final rid)) ∧
    (∀ rid chunk, AckAwaitsDrain (TunnelResponse_write rid chunk)) ∧
    (∀ rid chunks, AckAwaitsDrain (TunnelResponse_writev rid chunks)) ∧
    (∀ rid, AckAwaitsDrain (TunnelResponse_final rid)) :=
  ⟨fun _ _ => ackAwaitsDrain_of_flag _ rfl, fun _ _ => ackAwaitsDrain_of_flag _ rfl,
   fun _ => ackAwaitsDrain_of_flag _ rfl, fun _ _ => ackAwaitsDrain_of_flag _ rfl,
   fun _ _ => ackAwaitsDrain_of_flag _ rfl, fun _ => ackAwaitsDrain_of_flag _ rfl,
   fun _ _ => ackAwaitsDrain_of_flag _ rfl, fun _ _ => ackAwaitsDrain_of_flag _ rfl,
   fun _ => ackAwaitsDrain_of_flag _ rfl, fun _ _ => ackAwaitsDrain_of_flag _ rfl,
   fun _ _ => ackAwaitsDrain_of_flag _ rfl, fun _ => ackAwaitsDrain_of_flag _ rfl⟩

theorem c4_backpressure_ack_after_drain_witness :
    (execWriteOp (HTTP2TunnelRequest_write "r" [1])
        [TransportEv.other, TransportEv.drain])[0]? =
      some (WriteLogEntry.emitted (TFrame.http2RequestPipe "r" [1])) ∧
    ∃ j, 0 < j ∧ j < 3 ∧
      (execWriteOp (HTTP2TunnelRequest_write "r" [1])
          [TransportEv.other, TransportEv.drain])[j]? = some WriteLogEntry.drained :=
  c4_backpressure_ack_after_drain.1 "r" [1]
    [TransportEv.other, TransportEv.drain] 3 (by decide)

/-- Claim C7 fails as stated: the emitted message is
`'Local HTTP/2 client not connected'` (both client variants), not the
claim's `'Local client not connected'`. -/
theorem c7_not_connected_counterexample :
    onHttp2Request ⟨false, 0, []⟩ "r1" =
      (⟨false, 1, []⟩,
        [AgentOut.emitHttp2RequestError "r1" "Local HTTP/2 client not connected"]) ∧
    onHttp2RequestAlt ⟨false, 0, []⟩ "r1" =
      (⟨false, 0, []⟩,
        [AgentOut.emitHttp2RequestError "r1" "Local HTTP/2 client not connected"]) ∧
    "Local HTTP/2 client not connected" ≠ "Local client not connected" := by
  decide

/-- Claim C7 (amended): whenever the agent dispatcher receives an
`http2-request` frame while it has no live connection to the local origin,
it emits back an `http2-request-error` frame for that request id with
message `Local HTTP/2 client not connected`, and opens no origin stream
for that id (`activeRequests` is unchanged). -/
theorem c7_not_connected (st : AgentState) (rid : String)
    (h : st.localClientLive = false) :
    onHttp2Request st rid =
      ({ st with reconnectAttempts := st.reconnectAttempts + 1 },
        [AgentOut.emitHttp2RequestError rid "Local HTTP/2 client not connected"]) ∧
    (onHttp2Request st rid).1.activeRequests = st.activeRequests ∧
    onHttp2RequestAlt st rid =
      (st, [AgentOut.emitHttp2RequestError rid "Local HTTP/2 client not connected"]) := by
  refine ⟨?_, ?_, ?_⟩ <;> simp [onHttp2Request, onHttp2RequestAlt, h]

theorem c7_not_connected_witness :
    onHttp2Request ⟨false, 3, [("a", originStreamNew)]⟩ "r2" =
      ({ localClientLive := false, reconnectAttempts := 4,
          activeRequests := [("a", originStreamNew)] },
        [AgentOut.emitHttp2RequestError "r2" "Local HTTP/2 client not connected"]) :=
  (c7_not_connected ⟨false, 3, [("a", originStreamNew)]⟩ "r2" rfl).1

/-- Claim C10: a body, batch, end or error frame whose request id has no
entry in `activeRequests` (unknown, already completed, or already errored)
is a complete no-op for the agent: no origin stream is written, half-closed
or destroyed, the map is unchanged, and nothing is emitted back on the
control channel — in both client variants. -/
theorem c10_unknown_id_noop (st : AgentState) (rid : String)
    (h : alistGet st.activeRequests rid = none) :
    (∀ chunk wOk, onHttp2RequestPipe st rid chunk wOk = (st, [])) ∧
    (∀ chunks wOk, onHttp2RequestPipes st rid chunks wOk = (st, [])) ∧
    onHttp2RequestPipeEnd st rid = (st, []) ∧
    (∀ msg, onHttp2RequestPipeError st rid msg = (st, [])) ∧
    (∀ chunk, onRequestPipe st rid chunk = (st, [])) ∧
    (∀ chunks, onRequestPipes st rid chunks = (st, [])) ∧
    onRequestPipeEnd st rid = (st, []) ∧
    (∀ msg, onRequestPipeError st rid msg = (st, [])) := by
  refine ⟨?_, ?_, ?_, ?_, ?_, ?_, ?_, ?_⟩ <;>
    simp [onHttp2RequestPipe, onHttp2RequestPipes, onHttp2RequestPipeEnd,
      onHttp2RequestPipeError, onRequestPipe, onRequestPipes, onRequestPipeEnd,
      onRequestPipeError, h]

theorem c10_unknown_id_noop_witness :
    onHttp2RequestPipeEnd ⟨true, 0, [("a", originStreamNew)]⟩ "b" =
      (⟨true, 0, [("a", originStreamNew)]⟩, []) ∧
    onHttp2RequestPipe ⟨true, 0, [("a", originStreamNew)]⟩ "b" [1, 2] true =
      (⟨true, 0, [("a", originStreamNew)]⟩, []) :=
  ⟨(c10_unknown_id_noop ⟨true, 0, [("a", originStreamNew)]⟩ "b" (by decide)).2.2.1,
   (c10_unknown_id_noop ⟨true, 0, [("a", originStreamNew)]⟩ "b" (by decide)).1 [1, 2] true⟩

end LiteTunnel

